import Mathlib

/-!
Verification of the TCP session core of CppServer
(`src/include/server/asio/tcp_session.h`).

The header declares the `TCPSession` class: inline accessors
(`bytes_sent`, `bytes_received`, `IsConnected`), the public
`Disconnect()` wrapper, the string overload of `Send`, the default
notification hooks, and the private state (`_connected`, `_bytes_sent`,
`_bytes_received`, `_recive_buffer`, `_send_buffer`, `_reciving`,
`_sending`, `CHUNK = 8192`).  The bodies of `Send(const void*, size_t)`,
`Disconnect(bool)`, `Connect`, `TryReceive`, `TrySend` and the
completion handlers live in `tcp_session.inl`, which is not part of the
sources here; those operations are modelled from the specification
(sections 4.2-4.4 of the spec), as marked on each definition.

Bytes are modelled as natural numbers, byte areas as lists of naturals,
`size_t`/`uint64_t` values as `Nat` (with the `uint64_t` conversion of
the statistic accessors made explicit via `% 2^64`).
-/

/-- The receive chunk constant of the session
(`static const size_t CHUNK = 8192;` in the header). -/
def CHUNK : Nat := 8192

/-- Modulus of the unsigned 64-bit return type of the statistic
accessors. -/
def UINT64_MOD : Nat := 2 ^ 64

/-- State of one TCP session, mirroring the private members of
`TCPSession` in the header.  `reciveCapacity` models the capacity of the
`_recive_buffer` vector (its allocated tail space), which the receive
loop grows before arming a read. -/
structure TCPSession where
  connectedFlag : Bool
  bytesSentCounter : Nat
  bytesReceivedCounter : Nat
  reciveBuffer : List Nat
  reciveCapacity : Nat
  sendBuffer : List Nat
  recivingFlag : Bool
  sendingFlag : Bool
deriving Repr

/-- `IsConnected() const noexcept { return _connected; }` from the
header. -/
def TCPSession.IsConnected (s : TCPSession) : Bool := s.connectedFlag

/-- `uint64_t bytes_sent() const noexcept { return _bytes_sent; }` from
the header: the `size_t` counter converted to the unsigned 64-bit
return type. -/
def TCPSession.bytes_sent (s : TCPSession) : Nat :=
  s.bytesSentCounter % UINT64_MOD

/-- `uint64_t bytes_received() const noexcept { return _bytes_received; }`
from the header: the `size_t` counter converted to the unsigned 64-bit
return type. -/
def TCPSession.bytes_received (s : TCPSession) : Nat :=
  s.bytesReceivedCounter % UINT64_MOD

/-- Modelled from the spec: the body of `Send(const void* buffer,
size_t size)` is in `tcp_session.inl`, absent from the sources.
Spec 4.1: "appends bytes to the pending send buffer under the send
lock, then requests the send loop to run; returns the total pending
size after the append. Fails silently (returns 0) when not
connected."  Returns the result together with the updated session. -/
def Send (s : TCPSession) (buffer : List Nat) : Nat × TCPSession :=
  if !s.IsConnected then (0, s)
  else
    let pending := s.sendBuffer ++ buffer
    (pending.length, { s with sendBuffer := pending })

/-- `size_t Send(const std::string& text) { return Send(text.data(),
text.size()); }` from the header: the string overload delegates to the
byte overload on the string's contents. -/
def SendString (s : TCPSession) (text : List Nat) : Nat × TCPSession :=
  Send s text

/-- Modelled from the spec: the body of `Disconnect(bool dispatch)` is
in `tcp_session.inl`, absent from the sources.  Spec 4.2: "If already
disconnected, return false. ... close the socket, clear the connected
flag, clear receive and send buffers, reset in-flight flags, fire
`onDisconnected`".  The dispatch re-post is executed inline in this
sequential model. -/
def DisconnectImpl (s : TCPSession) (dispatch : Bool) : Bool × TCPSession :=
  if !s.IsConnected then (false, s)
  else
    (true, { s with connectedFlag := false,
                    reciveBuffer := [],
                    sendBuffer := [],
                    recivingFlag := false,
                    sendingFlag := false })

/-- `bool Disconnect() { return Disconnect(false); }` from the
header. -/
def Disconnect (s : TCPSession) : Bool × TCPSession :=
  DisconnectImpl s false

/-- Modelled from the spec: the body of `Connect` is in
`tcp_session.inl`, absent from the sources.  Spec 4.2: "sets
connected=true, arms the initial receive, invokes `onConnected`". -/
def Connect (s : TCPSession) : TCPSession :=
  { s with connectedFlag := true }

/-- Modelled from the spec: the body of `TryReceive` is in
`tcp_session.inl`, absent from the sources.  Spec 4.3: "1. If not
connected or a receive is already in flight, return.  2. Ensure the
receive buffer has at least CHUNK (8192) bytes of free tail capacity.
3. Mark receiving=true, issue an asynchronous read into the free tail."
The boolean result records whether a read was issued. -/
def TryReceive (s : TCPSession) : TCPSession × Bool :=
  if !s.IsConnected || s.recivingFlag then (s, false)
  else
    ({ s with recivingFlag := true,
              reciveCapacity :=
                max s.reciveCapacity (s.reciveBuffer.length + CHUNK) },
     true)

/-- Modelled from the spec: the body of `TrySend` is in
`tcp_session.inl`, absent from the sources.  Spec 4.4: "1. If not
connected, a send is already in flight, or the pending buffer is empty,
return.  2. Under the send lock, snapshot the pending byte range; mark
sending=true.  3. Issue an asynchronous write of the entire pending
range."  The boolean result records whether a write was issued. -/
def TrySend (s : TCPSession) : TCPSession × Bool :=
  if !s.IsConnected || s.sendingFlag || s.sendBuffer.isEmpty then (s, false)
  else ({ s with sendingFlag := true }, true)

/-- Modelled from the spec: the receive-completion handler is in
`tcp_session.inl`, absent from the sources.  Spec 4.3 step 4, success
case: "add N to `bytes_received`, treat the buffer's populated region
(including any retained tail from the previous turn) as the received
chunk, invoke `onReceived(ptr, len)`, which returns `consumed <= len`.
The first `consumed` bytes are dropped; the remaining `len - consumed`
bytes are kept for the next turn."  `hook` is the (possibly overridden)
`onReceived` handler, mapping the presented bytes to the consumed
count. -/
def receiveComplete (s : TCPSession) (chunk : List Nat)
    (hook : List Nat → Nat) : TCPSession :=
  let presented := s.reciveBuffer ++ chunk
  let consumed := hook presented
  { s with bytesReceivedCounter := s.bytesReceivedCounter + chunk.length,
           reciveBuffer := presented.drop consumed,
           recivingFlag := false }

/-- Modelled from the spec: the send-completion handler is in
`tcp_session.inl`, absent from the sources.  Spec 4.4 step 4, success
case: "On success with N bytes written: add N to `bytes_sent`.  Under
the send lock, remove the first N bytes from the pending buffer.
Mark sending=false.  Fire `onSent(N, remaining)`." -/
def sendComplete (s : TCPSession) (n : Nat) : TCPSession :=
  { s with bytesSentCounter := s.bytesSentCounter + n,
           sendBuffer := s.sendBuffer.drop n,
           sendingFlag := false }

/-- `virtual size_t onReceived(const void* buffer, size_t size)
{ return size; }` from the header: the default hook reports every
presented byte as handled. -/
def onReceivedDefault (presented : List Nat) : Nat := presented.length

/-- `virtual void onConnected() {}` from the header: the default hook
has an empty body, i.e. it is the identity on the session state. -/
def onConnectedDefault (s : TCPSession) : TCPSession := s

/-- `virtual void onDisconnected() {}` from the header: the default
hook has an empty body, i.e. it is the identity on the session
state. -/
def onDisconnectedDefault (s : TCPSession) : TCPSession := s

/-- `virtual void onSent(size_t sent, size_t pending) {}` from the
header: the default hook has an empty body, i.e. it is the identity on
the session state. -/
def onSentDefault (s : TCPSession) (sent pending : Nat) : TCPSession := s

/-- `virtual void onError(int error, const std::string& category,
const std::string& message) {}` from the header: the default hook has
an empty body, i.e. it is the identity on the session state. -/
def onErrorDefault (s : TCPSession) (error : Int) (category message : List Nat) :
    TCPSession := s

/-- The state-changing operations of a session, for stating invariants
over every step. -/
inductive SessionOp where
  | sendOp (buffer : List Nat)
  | disconnectOp (dispatch : Bool)
  | connectOp
  | tryReceiveOp
  | trySendOp
  | receiveCompleteOp (chunk : List Nat) (hook : List Nat → Nat)
  | sendCompleteOp (n : Nat)

/-- Effect of one session operation on the session state. -/
def applyOp : SessionOp → TCPSession → TCPSession
  | .sendOp buffer, s => (Send s buffer).snd
  | .disconnectOp d, s => (DisconnectImpl s d).snd
  | .connectOp, s => Connect s
  | .tryReceiveOp, s => (TryReceive s).fst
  | .trySendOp, s => (TrySend s).fst
  | .receiveCompleteOp chunk hook, s => receiveComplete s chunk hook
  | .sendCompleteOp n, s => sendComplete s n

/-- A sample connected session used by witness theorems. -/
def sampleSession : TCPSession :=
  { connectedFlag := true
    bytesSentCounter := 5
    bytesReceivedCounter := 7
    reciveBuffer := [1, 2]
    reciveCapacity := 8192
    sendBuffer := [3, 4, 5]
    recivingFlag := false
    sendingFlag := false }

/-- A sample disconnected session used by witness theorems. -/
def sampleClosed : TCPSession :=
  { connectedFlag := false
    bytesSentCounter := 5
    bytesReceivedCounter := 7
    reciveBuffer := []
    reciveCapacity := 0
    sendBuffer := []
    recivingFlag := false
    sendingFlag := false }

/-- C1: when the session is connected, `Send(buffer, size)` appends the
bytes to the pending send buffer and returns the total pending byte
count after the append; when not connected, it returns 0 and leaves the
session (in particular the pending send buffer) unchanged. -/
theorem send_appends_and_returns_pending (s : TCPSession) (buffer : List Nat) :
    (s.IsConnected = true →
      (Send s buffer).fst = s.sendBuffer.length + buffer.length ∧
      (Send s buffer).snd.sendBuffer = s.sendBuffer ++ buffer) ∧
    (s.IsConnected = false → Send s buffer = (0, s)) := by
  constructor
  · intro h
    simp [Send, h, List.length_append]
  · intro h
    simp [Send, h]

/-- Witness for C1: the connected sample session and the disconnected
sample session, with buffer `[9, 9]`. -/
theorem send_appends_and_returns_pending_witness :
    ((Send sampleSession [9, 9]).fst = 5 ∧
      (Send sampleSession [9, 9]).snd.sendBuffer = [3, 4, 5, 9, 9]) ∧
    Send sampleClosed [9, 9] = (0, sampleClosed) := by
  refine ⟨⟨?_, ?_⟩, ?_⟩
  · have h := (send_appends_and_returns_pending sampleSession [9, 9]).1
      (by decide)
    exact h.1.trans (by decide)
  · have h := (send_appends_and_returns_pending sampleSession [9, 9]).1
      (by decide)
    exact h.2.trans (by decide)
  · exact (send_appends_and_returns_pending sampleClosed [9, 9]).2 (by decide)

/-- C2: a `Disconnect` call returns true exactly when it effects the
transition from connected to disconnected (it returns the old value of
the connection flag and always leaves the session disconnected), an
already-disconnected session is left entirely unchanged, and any second
`Disconnect` call returns false without side effects. -/
theorem disconnect_transition (s : TCPSession) :
    (Disconnect s).fst = s.IsConnected ∧
    (Disconnect s).snd.IsConnected = false ∧
    (s.IsConnected = false → (Disconnect s).snd = s) ∧
    Disconnect (Disconnect s).snd = (false, (Disconnect s).snd) := by
  by_cases h : s.IsConnected
  · refine ⟨?_, ?_, ?_, ?_⟩ <;>
      simp [Disconnect, DisconnectImpl, TCPSession.IsConnected] at h ⊢ <;>
      simp [h]
  · simp only [Bool.not_eq_true] at h
    refine ⟨?_, ?_, ?_, ?_⟩ <;>
      simp [Disconnect, DisconnectImpl, TCPSession.IsConnected] at h ⊢ <;>
      simp [h]

/-- Witness for C2: the connected sample session; the first call
returns true, the state after it is unchanged by a second call. -/
theorem disconnect_transition_witness :
    (Disconnect sampleSession).fst = true ∧
    (Disconnect sampleClosed).snd = sampleClosed := by
  constructor
  · exact ((disconnect_transition sampleSession).1).trans (by decide)
  · exact (disconnect_transition sampleClosed).2.2.1 (by decide)

/-- C9: the string overload `Send(text)` is exactly the byte overload
applied to the string's contents: same return value and same effect on
the session, in particular on the pending send buffer. -/
theorem send_string_overload (s : TCPSession) (text : List Nat) :
    SendString s text = Send s text := rfl

/-- C4: no session operation ever decreases the bytes-sent counter or
the bytes-received counter: across every step both statistics are
monotonically non-decreasing. -/
theorem counters_monotone (op : SessionOp) (s : TCPSession) :
    s.bytesSentCounter ≤ (applyOp op s).bytesSentCounter ∧
    s.bytesReceivedCounter ≤ (applyOp op s).bytesReceivedCounter := by
  cases op with
  | sendOp buffer =>
      constructor <;> simp [applyOp, Send] <;> split <;> simp
  | disconnectOp d =>
      constructor <;> simp [applyOp, DisconnectImpl] <;> split <;> simp
  | connectOp => exact ⟨le_refl _, le_refl _⟩
  | tryReceiveOp =>
      constructor <;> simp [applyOp, TryReceive] <;> split <;> simp
  | trySendOp =>
      constructor <;> simp [applyOp, TrySend] <;> split <;> simp
  | receiveCompleteOp chunk hook =>
      constructor <;> simp [applyOp, receiveComplete]
  | sendCompleteOp n =>
      constructor <;> simp [applyOp, sendComplete]

/-- C6: the in-flight flags are exclusive gates: `TryReceive` returns
without issuing a read and without touching the state while the
receiving flag is set, and `TrySend` likewise while the sending flag is
set, so at most one asynchronous receive and at most one asynchronous
send are ever in flight. -/
theorem single_flight_gates (s : TCPSession) :
    (s.recivingFlag = true → TryReceive s = (s, false)) ∧
    (s.sendingFlag = true → TrySend s = (s, false)) := by
  constructor
  · intro h; simp [TryReceive, h]
  · intro h; simp [TrySend, h]

/-- Witness for C6: a session with both flags set neither reads nor
writes. -/
theorem single_flight_gates_witness :
    TryReceive { sampleSession with recivingFlag := true } =
      ({ sampleSession with recivingFlag := true }, false) ∧
    TrySend { sampleSession with sendingFlag := true } =
      ({ sampleSession with sendingFlag := true }, false) :=
  ⟨(single_flight_gates { sampleSession with recivingFlag := true }).1 rfl,
   (single_flight_gates { sampleSession with sendingFlag := true }).2 rfl⟩

/-- C7: the chunk constant equals 8192 bytes, and whenever `TryReceive`
issues an asynchronous read it first ensures the receive buffer has at
least `CHUNK` = 8192 bytes of free tail capacity. -/
theorem chunk_and_tail_capacity :
    CHUNK = 8192 ∧
    ∀ s : TCPSession, (TryReceive s).snd = true →
      (TryReceive s).fst.reciveBuffer.length + 8192 ≤
        (TryReceive s).fst.reciveCapacity := by
  refine ⟨rfl, ?_⟩
  intro s h
  by_cases hc : !s.IsConnected || s.recivingFlag
  · simp [TryReceive, hc] at h
  · simp [TryReceive, hc, CHUNK]

/-- Witness for C7: the sample connected session; the read is issued
and the grown capacity leaves 8192 free bytes past the 2 buffered
bytes. -/
theorem chunk_and_tail_capacity_witness :
    (TryReceive sampleSession).snd = true ∧
    (TryReceive sampleSession).fst.reciveBuffer.length + 8192 ≤
      (TryReceive sampleSession).fst.reciveCapacity :=
  ⟨by decide, chunk_and_tail_capacity.2 sampleSession (by decide)⟩

/-- C3: when the `onReceived` hook returns `consumed ≤ len` on the
presented bytes, the receive turn drops exactly the first `consumed`
bytes, keeps the remaining `len - consumed` bytes, and those remaining
bytes stand verbatim at the head of the bytes presented to the next
`onReceived` invocation (retained tail followed by the next chunk). -/
theorem received_tail_preserved (s : TCPSession) (chunk : List Nat)
    (hook : List Nat → Nat)
    (h : hook (s.reciveBuffer ++ chunk) ≤ (s.reciveBuffer ++ chunk).length) :
    (receiveComplete s chunk hook).reciveBuffer =
      (s.reciveBuffer ++ chunk).drop (hook (s.reciveBuffer ++ chunk)) ∧
    (receiveComplete s chunk hook).reciveBuffer.length =
      (s.reciveBuffer ++ chunk).length - hook (s.reciveBuffer ++ chunk) ∧
    ∀ chunk2 : List Nat,
      ((receiveComplete s chunk hook).reciveBuffer ++ chunk2).take
          ((s.reciveBuffer ++ chunk).length - hook (s.reciveBuffer ++ chunk)) =
        (s.reciveBuffer ++ chunk).drop (hook (s.reciveBuffer ++ chunk)) := by
  refine ⟨rfl, ?_, ?_⟩
  · simp [receiveComplete]
  · intro chunk2
    have hlen : ((s.reciveBuffer ++ chunk).drop
        (hook (s.reciveBuffer ++ chunk))).length =
        (s.reciveBuffer ++ chunk).length - hook (s.reciveBuffer ++ chunk) := by
      simp
    have hbuf : (receiveComplete s chunk hook).reciveBuffer =
        (s.reciveBuffer ++ chunk).drop (hook (s.reciveBuffer ++ chunk)) := rfl
    rw [hbuf, ← hlen, List.take_left]

/-- Witness for C3: retained tail `[1, 2]`, incoming chunk `[7, 8]`,
hook consuming 1 byte: `[2, 7, 8]` remains and heads the next
presentation. -/
theorem received_tail_preserved_witness :
    (fun _ => 1 : List Nat → Nat) (sampleSession.reciveBuffer ++ [7, 8]) ≤
      (sampleSession.reciveBuffer ++ [7, 8]).length ∧
    (receiveComplete sampleSession [7, 8] (fun _ => 1)).reciveBuffer ++ [9] =
      [2, 7, 8, 9] := by
  constructor
  · decide
  · have h := (received_tail_preserved sampleSession [7, 8]
      (fun _ => 1) (by decide)).1
    rw [h]
    decide

/-- C10: the default `onReceived` hook returns exactly the presented
size, so a receive turn with the default hook retains no tail; the
default `onConnected`, `onDisconnected`, `onSent` and `onError` hooks
leave the session state untouched. -/
theorem default_hooks_consume_all (s : TCPSession) (presented chunk : List Nat)
    (sent pending : Nat) (error : Int) (category message : List Nat) :
    onReceivedDefault presented = presented.length ∧
    (receiveComplete s chunk onReceivedDefault).reciveBuffer = [] ∧
    onConnectedDefault s = s ∧
    onDisconnectedDefault s = s ∧
    onSentDefault s sent pending = s ∧
    onErrorDefault s error category message = s :=
  ⟨rfl, by simp [receiveComplete, onReceivedDefault], rfl, rfl, rfl, rfl⟩

/-- C8: the statistic accessors return the session's internal byte
counters as unsigned 64-bit values: whenever the counters are in the
64-bit range the returned values equal them exactly, and the returned
values always lie below 2^64. -/
theorem byte_counter_accessors (s : TCPSession)
    (hs : s.bytesSentCounter < UINT64_MOD)
    (hr : s.bytesReceivedCounter < UINT64_MOD) :
    s.bytes_sent = s.bytesSentCounter ∧
    s.bytes_received = s.bytesReceivedCounter ∧
    s.bytes_sent < UINT64_MOD ∧
    s.bytes_received < UINT64_MOD := by
  refine ⟨Nat.mod_eq_of_lt hs, Nat.mod_eq_of_lt hr, ?_, ?_⟩ <;>
    exact Nat.mod_lt _ (by decide)

/-- Witness for C8: the sample session with counters 5 and 7. -/
theorem byte_counter_accessors_witness :
    sampleSession.bytes_sent = 5 ∧ sampleSession.bytes_received = 7 := by
  have h := byte_counter_accessors sampleSession (by decide) (by decide)
  exact ⟨h.1.trans rfl, h.2.1.trans rfl⟩

/-- The user notification hooks of the session, as trace events. -/
inductive HookEvent where
  | connectedEv
  | disconnectedEv
  | receivedEv
  | sentEv
  | erroredEv
deriving DecidableEq, Repr

/-- Lifecycle phase of a session, from the state machine of spec 4.2:
constructed (`Idle`), connected (`Connected`), closed terminal
(`Closed`). -/
inductive Phase where
  | idlePhase
  | livePhase
  | closedPhase
deriving DecidableEq, Repr

/-- Modelled from the spec: when each hook may fire, per the lifecycle
of spec 4.2 and the scheduling model of spec 5 (hooks of one session
are serialized on its executor strand).  `onConnected` fires on the
transition out of `Idle`; `onReceived`, `onSent` and `onError` fire
while connected; `onDisconnected` fires on the transition into the
terminal `Closed` phase, which admits no further hook. -/
def phaseStep : Phase → HookEvent → Option Phase
  | .idlePhase, .connectedEv => some .livePhase
  | .livePhase, .receivedEv => some .livePhase
  | .livePhase, .sentEv => some .livePhase
  | .livePhase, .erroredEv => some .livePhase
  | .livePhase, .disconnectedEv => some .closedPhase
  | _, _ => none

/-- Run the lifecycle machine over a hook trace. -/
def runPhases : Phase → List HookEvent → Option Phase
  | p, [] => some p
  | p, e :: es =>
      match phaseStep p e with
      | some q => runPhases q es
      | none => none

/-- A hook trace a session can emit: one the lifecycle machine accepts
from the initial phase. -/
def ValidTrace (tr : List HookEvent) : Prop :=
  (runPhases Phase.idlePhase tr).isSome = true

/-- No hook event is accepted in the terminal closed phase. -/
theorem runPhases_closed (ys : List HookEvent)
    (h : (runPhases Phase.closedPhase ys).isSome = true) : ys = [] := by
  cases ys with
  | nil => rfl
  | cons y ys =>
      exfalso
      cases y <;> simp [runPhases, phaseStep] at h

/-- A nonempty valid trace starts with the connected event. -/
theorem validTrace_head (e : HookEvent) (es : List HookEvent)
    (h : ValidTrace (e :: es)) : e = HookEvent.connectedEv := by
  cases e <;> simp [ValidTrace, runPhases, phaseStep] at h ⊢

/-- Running the machine over an appended trace runs the pieces in
order. -/
theorem runPhases_append (p : Phase) (xs ys : List HookEvent) :
    runPhases p (xs ++ ys) =
      (runPhases p xs).bind (fun q => runPhases q ys) := by
  induction xs generalizing p with
  | nil => rfl
  | cons x xs ih =>
      simp only [List.cons_append, runPhases]
      cases phaseStep p x with
      | none => rfl
      | some q => exact ih q

/-- C5: in every hook trace a session can emit, the connected event
strictly precedes every received and every sent event, and nothing
follows the disconnected event: after `onDisconnected` fires no further
user hook fires. -/
theorem hooks_lifecycle_order (tr : List HookEvent) (h : ValidTrace tr) :
    (∀ j, ∀ hj : j < tr.length,
        (tr.get ⟨j, hj⟩ = HookEvent.receivedEv ∨
         tr.get ⟨j, hj⟩ = HookEvent.sentEv) →
        ∃ i, ∃ hi : i < tr.length,
          i < j ∧ tr.get ⟨i, hi⟩ = HookEvent.connectedEv) ∧
    (∀ xs ys, tr = xs ++ HookEvent.disconnectedEv :: ys → ys = []) := by
  constructor
  · intro j hj hrs
    cases tr with
    | nil => exact absurd hj (by simp)
    | cons e es =>
        have he : e = HookEvent.connectedEv := validTrace_head e es h
        refine ⟨0, by simp, ?_, by simpa [List.get] using he⟩
        cases j with
        | zero =>
            exfalso
            rcases hrs with hr | hr <;> rw [List.get] at hr <;> simp_all
        | succ n => exact Nat.succ_pos n
  · intro xs ys heq
    subst heq
    have h1 : (runPhases Phase.idlePhase
        (xs ++ HookEvent.disconnectedEv :: ys)).isSome = true := h
    rw [runPhases_append] at h1
    cases hx : runPhases Phase.idlePhase xs with
    | none => rw [hx] at h1; simp at h1
    | some p =>
        rw [hx] at h1
        simp only [Option.some_bind] at h1
        cases p with
        | idlePhase => simp [runPhases, phaseStep] at h1
        | closedPhase => simp [runPhases, phaseStep] at h1
        | livePhase =>
            refine runPhases_closed ys ?_
            simpa [runPhases, phaseStep] using h1

/-- Witness for C5: the echo-scenario trace connected, received, sent,
disconnected; the received event at position 1 is preceded by the
connected event, and the tail after the disconnected event is empty. -/
theorem hooks_lifecycle_order_witness :
    ValidTrace [HookEvent.connectedEv, HookEvent.receivedEv,
      HookEvent.sentEv, HookEvent.disconnectedEv] ∧
    (∃ i, ∃ hi : i < ([HookEvent.connectedEv, HookEvent.receivedEv,
        HookEvent.sentEv, HookEvent.disconnectedEv] :
          List HookEvent).length,
      i < 1 ∧ ([HookEvent.connectedEv, HookEvent.receivedEv,
        HookEvent.sentEv, HookEvent.disconnectedEv] :
          List HookEvent).get ⟨i, hi⟩ = HookEvent.connectedEv) := by
  have hv : ValidTrace [HookEvent.connectedEv, HookEvent.receivedEv,
      HookEvent.sentEv, HookEvent.disconnectedEv] := rfl
  exact ⟨hv, (hooks_lifecycle_order _ hv).1 1 (by decide) (Or.inl rfl)⟩
